import Mathlib

/-!
Verification development for the eoka browser-automation core
(crates/eoka-agent and the root observation module).

The Rust code is shallowly embedded: pure functions become Lean
functions, stateful methods become explicit state passing, fallible
operations return `Except`, and the injected JavaScript helpers are
modelled as Lean functions over an explicit DOM-node record carrying
exactly the attributes the scripts read.  Machine integers are `Nat`
with explicit bounds where overflow matters; `f64` coordinates are
modelled as `Rat` (the scripts only compare and add them).
-/

set_option maxRecDepth 4000

namespace Eoka

/-- Model of the `eoka::Error` sum type.  Only the variants the verified
code paths construct are distinguished; every other error produced by a
page primitive is carried opaquely as `pageError`. -/
inductive Error where
  | elementNotFound (detail : String)
  | cdpSimple (msg : String)
  | pageError (msg : String)
  deriving DecidableEq, Repr

/-- Case-insensitive lowering used by the JS helpers (`toLowerCase`);
modelled with per-character lowering on the character list. -/
def lowerStr (s : String) : String :=
  ⟨s.data.map Char.toLower⟩

/-- Whitespace trimming (Rust `str::trim`, JS `String.prototype.trim`):
drop leading and trailing whitespace characters.  Modelled structurally
on the character list. -/
def trimWs (s : String) : String :=
  ⟨((s.data.dropWhile Char.isWhitespace).reverse.dropWhile Char.isWhitespace).reverse⟩

/-- Boolean substring containment on character lists: JS
`haystack.includes(needle)`. -/
def listContainsSub (hay needle : List Char) : Bool :=
  (List.range (hay.length + 1)).any (fun i => needle.isPrefixOf (hay.drop i))

/-- JS `lc(s).includes(lc(v))`: case-insensitive substring test. -/
def containsCI (hay needle : String) : Bool :=
  listContainsSub (lowerStr hay).data (lowerStr needle).data

/-- Bounding box in viewport coordinates (`eoka::BoundingBox`, `f64`
fields modelled as rationals). -/
structure BoundingBox where
  x : Rat
  y : Rat
  width : Rat
  height : Rat
  deriving DecidableEq, Repr

/-- The eoka-agent `InteractiveElement` record (crates/eoka-agent/src/lib.rs). -/
structure InteractiveElement where
  index : Nat
  tag : String
  role : Option String
  text : String
  placeholder : Option String
  input_type : Option String
  selector : String
  checked : Bool
  value : Option String
  bbox : BoundingBox
  fingerprint : Nat
  deriving DecidableEq, Repr

end Eoka

namespace Targeting

/-- Live targeting patterns (crates/eoka-agent/src/target.rs). -/
inductive LivePattern where
  | text (s : String)
  | placeholder (s : String)
  | role (s : String)
  | css (s : String)
  | id (s : String)
  deriving DecidableEq, Repr

/-- Target selector: cached index or live pattern
(crates/eoka-agent/src/target.rs). -/
inductive Target where
  | index (n : Nat)
  | live (p : LivePattern)
  deriving DecidableEq, Repr

/-- Model of Rust `str::parse::<usize>()` on a 64-bit platform: an
optional leading plus sign, then at least one ASCII digit, and the value
must fit in 64 bits (otherwise `from_str` fails with overflow). -/
def rustParseUsize (s : String) : Option Nat :=
  let cs := s.data
  let ds := match cs with
    | '+' :: rest => rest
    | _ => cs
  if ds.isEmpty then none
  else if ds.all Char.isDigit then
    let n := ds.foldl (fun a c => a * 10 + (c.toNat - 48)) 0
    if n < 2 ^ 64 then some n else none
  else none

/-- Rust `str::strip_prefix`, modelled on character lists. -/
def stripPre (pre s : String) : Option String :=
  if pre.data.isPrefixOf s.data then some ⟨s.data.drop pre.data.length⟩ else none

/-- `LivePattern::parse` (target.rs lines 47–65): known `kind:` prefixes,
with unprefixed strings defaulting to a text search. -/
def LivePattern.parse (s : String) : LivePattern :=
  match stripPre "text:" s with
  | some v => LivePattern.text v
  | none =>
  match stripPre "placeholder:" s with
  | some v => LivePattern.placeholder v
  | none =>
  match stripPre "role:" s with
  | some v => LivePattern.role v
  | none =>
  match stripPre "css:" s with
  | some v => LivePattern.css v
  | none =>
  match stripPre "id:" s with
  | some v => LivePattern.id v
  | none => LivePattern.text s

/-- `Target::parse` (target.rs lines 32–42): trim, try `usize`, fall back
to a live pattern.  Rust `str::trim` removes Unicode whitespace on both
ends; `Eoka.trimWs` agrees on the ASCII whitespace relevant here. -/
def Target.parse (s : String) : Target :=
  let t := Eoka.trimWs s
  match rustParseUsize t with
  | some idx => Target.index idx
  | none => Target.live (LivePattern.parse t)

end Targeting

namespace Fingerprint

/-- Rust `str::is_char_boundary` on the UTF-8 byte sequence: index 0 and
the end are boundaries, and an interior index is a boundary iff the byte
there is not a UTF-8 continuation byte (`0x80..0xBF`). -/
def isCharBoundary (bytes : List Nat) (i : Nat) : Bool :=
  if i == 0 then true
  else
    match bytes[i]? with
    | some b => decide (b < 0x80) || decide (0xC0 ≤ b)
    | none => i == bytes.length

/-- One 64-bit mixing step of the hasher model. -/
def hashByte (h b : Nat) : Nat :=
  (h * 1099511628211 + b) % 2 ^ 64

/-- Hashing a Rust `str` feeds its UTF-8 bytes followed by a `0xFF`
terminator.  `DefaultHasher`'s SipHash-1-3 internals are modelled by the
deterministic mixing step above; the claims settled here depend only on
which inputs are fed and on slice totality, never on the hash value. -/
def hashStrBytes (h : Nat) (s : List Nat) : Nat :=
  hashByte (s.foldl hashByte h) 0xFF

/-- Hashing `Option<&str>`: a discriminant byte, then the payload. -/
def hashOptBytes (h : Nat) (o : Option (List Nat)) : Nat :=
  match o with
  | none => hashByte h 0
  | some s => hashStrBytes (hashByte h 1) s

/-- `InteractiveElement::compute_fingerprint` (lib.rs lines 69–88) over
UTF-8 byte lists.  The source hashes tag, text, role, input_type,
placeholder, then the byte slice `selector[..selector.len().min(50)]`.
Rust byte-slicing a `&str` panics when the cut index is not a character
boundary; the panic is modelled as `none`. -/
def compute_fingerprint (tag text : List Nat) (role input_type placeholder : Option (List Nat))
    (selector : List Nat) : Option Nat :=
  let cut := min selector.length 50
  if isCharBoundary selector cut then
    some (hashStrBytes
      (hashOptBytes
        (hashOptBytes
          (hashOptBytes
            (hashStrBytes (hashStrBytes 0 tag) text)
            role)
          input_type)
        placeholder)
      (selector.take cut))
  else none

end Fingerprint

namespace Dom

/-- The attributes and computed values of one DOM element that the
injected observation and resolution scripts read.  Document-global
lookups performed by the scripts (`getLabel`, the ancestor
`nth-of-type` path) are carried as per-node inputs. -/
structure DomNode where
  x : Rat
  y : Rat
  width : Rat
  height : Rat
  display : String
  visibility : String
  opacity : Rat
  tagName : String
  typeAttr : Option String
  ariaLabel : Option String
  placeholderAttr : Option String
  titleAttr : Option String
  roleAttr : Option String
  dataTestid : Option String
  idAttr : String
  nameAttr : String
  valueProp : String
  checkedProp : Bool
  textContent : String
  labelText : String
  selectedOptionText : Option String
  selectedOptionValue : Option String
  childTags : List String
  hasOnclick : Bool
  contenteditableAttr : Option String
  tabindexAttr : Option String
  innerText : String
  domPath : String
  deriving DecidableEq, Repr

/-- JS `el.getAttribute(name) || ''`: null (and the empty string)
collapse to the empty string. -/
def attrOr (o : Option String) : String :=
  o.getD ""

/-- The union selector constant of the observation script
(src/src/observe.rs line 27). -/
def OBSERVE_INTERACTIVE : String :=
  "a, button, input, select, textarea, [role=\"button\"], [role=\"link\"], [role=\"tab\"], [role=\"menuitem\"], [onclick], [contenteditable=\"true\"]"

/-- The union selector inside the live resolver's `interactive()` helper
(crates/eoka-agent/src/target.rs line 128). -/
def RESOLVE_INTERACTIVE : String :=
  "a,button,input,select,textarea,[role=\"button\"],[onclick],[tabindex]"

/-- Whether a node matches the observation script's union selector
`OBSERVE_INTERACTIVE` (CSS semantics over the node's attributes). -/
def matchesObserveInteractive (el : DomNode) : Bool :=
  let tag := Eoka.lowerStr el.tagName
  ["a", "button", "input", "select", "textarea"].contains tag
    || el.roleAttr == some "button" || el.roleAttr == some "link"
    || el.roleAttr == some "tab" || el.roleAttr == some "menuitem"
    || el.hasOnclick || el.contenteditableAttr == some "true"

/-- Whether a node matches the live resolver's union selector
`RESOLVE_INTERACTIVE` (CSS semantics over the node's attributes). -/
def matchesResolveInteractive (el : DomNode) : Bool :=
  let tag := Eoka.lowerStr el.tagName
  ["a", "button", "input", "select", "textarea"].contains tag
    || el.roleAttr == some "button" || el.hasOnclick || el.tabindexAttr.isSome

/-- Visibility filter inside the resolver's `interactive()` helper:
`r.width > 0 && r.height > 0 && s.visibility !== 'hidden' && s.display !== 'none'`. -/
def resolveVisible (el : DomNode) : Bool :=
  decide (0 < el.width) && decide (0 < el.height)
    && !(el.visibility == "hidden") && !(el.display == "none")

/-- JS `a || b` on strings: the left operand unless it is empty. -/
def jsOr (a b : String) : String :=
  if a == "" then b else a

/-- The resolver's `text(el)` helper:
`el.innerText?.trim() || el.value || el.getAttribute('aria-label') || el.title || el.placeholder || ''`. -/
def resolveTextOf (el : DomNode) : String :=
  jsOr (Eoka.trimWs el.innerText)
    (jsOr el.valueProp
      (jsOr (attrOr el.ariaLabel)
        (jsOr (attrOr el.titleAttr) (attrOr el.placeholderAttr))))

/-- The resolver's `lc` helper: `s => (s || '').toLowerCase().trim()`. -/
def lcJs (s : String) : String :=
  Eoka.trimWs (Eoka.lowerStr s)

/-- The `case 'text'` arm of RESOLVE_JS:
`interactive().find(e => lc(text(e)).includes(valLc))` where the
document is modelled as the pre-order list of its element nodes. -/
def resolveText (doc : List Dom.DomNode) (value : String) : Option DomNode :=
  let valLc := lcJs value
  (doc.filter (fun e => matchesResolveInteractive e && resolveVisible e)).find?
    (fun e => Eoka.listContainsSub (lcJs (resolveTextOf e)).data valLc.data)

end Dom

namespace Observe

open Dom

/-- Text truncation of the observation script (observe.rs line 99):
`if (text.length > 60) text = text.substring(0, 57) + '...';`.
JS strings are modelled as character lists (all observed deviations are
exhibited on BMP text, where UTF-16 units and characters coincide). -/
def truncateText (t : List Char) : List Char :=
  if t.length > 60 then t.take 57 ++ ['.', '.', '.'] else t

/-- String-typed wrapper around `truncateText`. -/
def truncStr (s : String) : String :=
  ⟨truncateText s.data⟩

/-- JS `s.trim().replace(/\s+/g, ' ')`: collapse every whitespace run to
a single space and drop leading/trailing whitespace. -/
def collapseWs (s : String) : String :=
  String.intercalate " " ((s.split Char.isWhitespace).filter (fun p => p ≠ ""))

/-- Lowercase hexadecimal digits of a code point (used by escapes). -/
def hexOf (n : Nat) : String :=
  ⟨Nat.toDigits 16 n⟩

/-- JSON.stringify escaping for one character. -/
def jsonEscapeChar (c : Char) : String :=
  if c == '"' then "\\\""
  else if c == '\\' then "\\\\"
  else if c == '\n' then "\\n"
  else if c == '\r' then "\\r"
  else if c == '\t' then "\\t"
  else if c == (Char.ofNat 8) then "\\b"
  else if c == (Char.ofNat 12) then "\\f"
  else if c.toNat < 0x20 then
    "\\u" ++ (String.mk (List.replicate (4 - (hexOf c.toNat).length) '0')) ++ hexOf c.toNat
  else String.singleton c

/-- JS `JSON.stringify` applied to a string: double quotes around the
escaped characters.  The scripts use it to quote attribute values inside
generated selectors. -/
def jsonQuote (s : String) : String :=
  "\"" ++ String.join (s.data.map jsonEscapeChar) ++ "\""

/-- One character of `CSS.escape`, given its index and the full string
(the first characters get special treatment per the CSSOM algorithm). -/
def cssEscapeChar (s : String) (i : Nat) (c : Char) : String :=
  if c == (Char.ofNat 0) then String.singleton (Char.ofNat 0xFFFD)
  else if c.toNat ≥ 1 ∧ c.toNat ≤ 0x1F ∨ c.toNat == 0x7F then "\\" ++ hexOf c.toNat ++ " "
  else if i == 0 ∧ c.isDigit then "\\" ++ hexOf c.toNat ++ " "
  else if i == 1 ∧ c.isDigit ∧ s.data.head? == some '-' then "\\" ++ hexOf c.toNat ++ " "
  else if i == 0 ∧ c == '-' ∧ s.length == 1 then "\\-"
  else if c.toNat ≥ 0x80 ∨ c == '-' ∨ c == '_' ∨ c.isAlphanum then String.singleton c
  else "\\" ++ String.singleton c

/-- Model of `CSS.escape` (used for `#id` selectors). -/
def cssEscape (s : String) : String :=
  String.join (s.data.enum.map (fun p => cssEscapeChar s p.1 p.2))

/-- Selector construction of the observation script (observe.rs lines
115–151): `#id`, then `tag[name=...]` (with `[value=...]` for
radio/checkbox), then `tag[aria-label=...]`, then
`input[type=...][placeholder=...]`, then `[data-testid=...]`, then the
ancestor `nth-of-type` path (carried on the node as `domPath`). -/
def buildSelector (el : DomNode) (tag : String) (isFormEl : Bool)
    (inputType ariaLabel placeholder : String) : String :=
  if el.idAttr ≠ "" then "#" ++ cssEscape el.idAttr
  else if isFormEl ∧ el.nameAttr ≠ "" then
    if (inputType == "radio" ∨ inputType == "checkbox") ∧ el.valueProp ≠ "" then
      tag ++ "[name=" ++ jsonQuote el.nameAttr ++ "][value=" ++ jsonQuote el.valueProp ++ "]"
    else
      tag ++ "[name=" ++ jsonQuote el.nameAttr ++ "]"
  else if ariaLabel ≠ "" then tag ++ "[aria-label=" ++ jsonQuote ariaLabel ++ "]"
  else if tag == "input" ∧ inputType ≠ "" ∧ placeholder ≠ "" then
    "input[type=" ++ jsonQuote inputType ++ "][placeholder=" ++ jsonQuote placeholder ++ "]"
  else
    match el.dataTestid with
    | some dt => if dt ≠ "" then "[data-testid=" ++ jsonQuote dt ++ "]" else el.domPath
    | none => el.domPath

/-- Raw record pushed by the observation script (mirrors the JSON shape
decoded into `RawElement` in observe.rs lines 8–22). -/
structure RawElement where
  tag : String
  role : Option String
  text : String
  placeholder : Option String
  input_type : Option String
  selector : String
  checked : Bool
  value : String
  x : Int
  y : Int
  width : Int
  height : Int
  deriving DecidableEq, Repr

/-- JS `Math.round`: floor of the value plus one half. -/
def jsRound (q : Rat) : Int :=
  ⌊q + 1 / 2⌋

/-- `processElement` of the observation script (observe.rs lines 63–182)
for a single node; `none` models every early `return`.
`rect.top/bottom/left/right` are derived from the rectangle as `y`,
`y + height`, `x`, `x + width`.  The script's `seen` check sits between
two pure computations; it is hoisted into `collectStep`, which performs
it on this function's result, so the emitted records are identical. -/
def processElement (viewportOnly : Bool) (vw vh : Rat)
    (el : DomNode) : Option RawElement :=
  if el.width < 2 ∨ el.height < 2 then none
  else if el.display == "none" ∨ el.visibility == "hidden" ∨ el.opacity < (1 / 10 : Rat) then none
  else if viewportOnly ∧ (el.y + el.height < 0 ∨ el.y > vh ∨ el.x + el.width < 0 ∨ el.x > vw) then
    none
  else
    let tag := Eoka.lowerStr el.tagName
    let isFormEl := tag == "input" ∨ tag == "select" ∨ tag == "textarea"
    let inputType := attrOr el.typeAttr
    let text0 := attrOr el.ariaLabel
    let text1 :=
      if text0 ≠ "" then text0
      else if tag == "a" ∨ tag == "button" then
        let t := collapseWs el.textContent
        if t.length > 80 then "" else t
      else if isFormEl then
        if el.labelText ≠ "" then el.labelText
        else if tag == "select" then attrOr el.selectedOptionText
        else ""
      else collapseWs el.textContent
    let text := truncStr text1
    let placeholder := attrOr el.placeholderAttr
    let ariaLabel := attrOr el.ariaLabel
    let title := attrOr el.titleAttr
    if text == "" ∧ placeholder == "" ∧ ariaLabel == "" ∧ title == "" ∧ ¬ isFormEl then none
    else if (tag == "a" ∨ tag == "button") ∧ el.childTags.length == 1 ∧
        (el.childTags.head? == some "button" ∨ el.childTags.head? == some "input") then none
    else
      let selector := buildSelector el tag isFormEl inputType ariaLabel placeholder
      let value :=
        if isFormEl ∧ inputType ≠ "password" then
          let v := if tag == "select" then attrOr el.selectedOptionValue
                   else Eoka.trimWs el.valueProp
          if v.length > 40 then String.mk (v.data.take 37) ++ "..." else v
        else ""
      some {
        tag := tag
        role := match el.roleAttr with | some "" => none | r => r
        text := text
        placeholder := if placeholder == "" then none else some placeholder
        input_type :=
          if tag == "input" then some (if inputType == "" then "text" else inputType)
          else if tag == "select" then some "select" else none
        selector := selector
        checked := el.checkedProp
        value := value
        x := jsRound el.x
        y := jsRound el.y
        width := jsRound el.width
        height := jsRound el.height }

/-- One step of the `collect` loop: nodes matching the union selector
are processed; a record whose selector is already in `seen` is skipped
(`if (seen.has(selector)) return;`), otherwise its selector joins
`seen` and the record is pushed. -/
def collectStep (viewportOnly : Bool) (vw vh : Rat)
    (acc : List RawElement × List String) (node : DomNode) : List RawElement × List String :=
  if matchesObserveInteractive node then
    match processElement viewportOnly vw vh node with
    | some r =>
      if acc.2.contains r.selector then acc
      else (acc.1 ++ [r], acc.2 ++ [r.selector])
    | none => acc
  else acc

/-- The full OBSERVE_JS traversal over the document's element nodes in
pre-order (shadow roots flattened into the list, as the script visits
them during the walk). -/
def collectJs (viewportOnly : Bool) (vw vh : Rat) (nodes : List DomNode) : List RawElement :=
  (nodes.foldl (collectStep viewportOnly vw vh) ([], [])).1

/-- Root-crate `InteractiveElement` (the record built in
src/src/observe.rs lines 200–224; it carries no fingerprint). -/
structure ObsElement where
  index : Nat
  tag : String
  role : Option String
  text : String
  placeholder : Option String
  input_type : Option String
  selector : String
  checked : Bool
  value : Option String
  bbox : Eoka.BoundingBox
  deriving DecidableEq, Repr

/-- Host-side wrapping in `observe` (observe.rs lines 200–224):
enumerate the raw records, assigning dense indices, and turn an empty
`value` into `None`.  The JSON round trip through `evaluate` is the
identity on the decoded records. -/
def observeHost (raw : List RawElement) : List ObsElement :=
  raw.enum.map (fun p =>
    { index := p.1
      tag := p.2.tag
      role := p.2.role
      text := p.2.text
      placeholder := p.2.placeholder
      input_type := p.2.input_type
      selector := p.2.selector
      checked := p.2.checked
      value := if p.2.value == "" then none else some p.2.value
      bbox := { x := (p.2.x : Rat), y := (p.2.y : Rat),
                width := (p.2.width : Rat), height := (p.2.height : Rat) } })

/-- `observe(page, viewport_only)`: run the injected traversal on the
page's nodes and wrap the result. -/
def observe (viewportOnly : Bool) (vw vh : Rat) (nodes : List DomNode) : List ObsElement :=
  observeHost (collectJs viewportOnly vw vh nodes)

end Observe

namespace Annotate

open Eoka

/-- Results of the page primitives `annotated_screenshot` invokes, in
the order it invokes them: the overlay-injecting `execute`, the
`screenshot`, and the overlay-removing `execute`. -/
structure AnnotatePage where
  injectResult : Except Error Unit
  screenshotResult : Except Error (List Nat)
  removeResult : Except Error Unit

/-- `annotated_screenshot` (crates/eoka-agent/src/annotate.rs lines
8–118).  The boolean tracks whether the `__eoka_overlay` container is
attached to the page when the function returns (the page starts without
it; `appendChild` is the final statement of the injected script, so a
failed inject leaves no overlay, and a successful removal script takes
it off).  The 50 ms layout sleep between inject and screenshot has no
observable effect here and is elided. -/
def annotated_screenshot (p : AnnotatePage) (elements : List InteractiveElement) :
    Except Error (List Nat) × Bool :=
  if elements.isEmpty then (p.screenshotResult, false)
  else
    match p.injectResult with
    | Except.error e => (Except.error e, false)
    | Except.ok _ =>
      match p.screenshotResult with
      | Except.error e => (Except.error e, true)
      | Except.ok png =>
        match p.removeResult with
        | Except.error e => (Except.error e, true)
        | Except.ok _ => (Except.ok png, false)

end Annotate

namespace Agent

open Eoka

/-- Operations the action layer dispatches to the page (the model's
observable trace). -/
inductive PageOp where
  | click (selector : String)
  | fillOp (selector : String) (text : String)
  | selectChange (selector : String) (value : String)
  | mouseMoved (x y : Rat)
  | scrollIntoView (selector : String)
  | networkIdleWait (idleMs timeoutMs : Nat)
  | sleep (ms : Nat)
  deriving DecidableEq, Repr

/-- Behaviour of the underlying `Page` for one action: what each
primitive would return if invoked.  `selectorExists` is the result of
evaluating `!!document.querySelector(sel)` (`none` models an `evaluate`
error, which the source collapses to `false` via `unwrap_or(false)`);
`observeResult` is what `observe()` would produce;
`selectChangeResult` is the boolean returned by the injected
option-selecting script. -/
structure PageModel where
  selectorExists : String → Option Bool
  observeResult : Except Error (List InteractiveElement)
  clickResult : String → Except Error Unit
  fillResult : String → String → Except Error Unit
  selectChangeResult : String → String → Except Error Bool
  mouseResult : Rat → Rat → Except Error Unit
  scrollResult : String → Except Error Unit
  idleResult : Except Error Unit

/-- The `Session`'s observation cache (`self.elements`). -/
structure SessionState where
  elements : List InteractiveElement
  deriving DecidableEq, Repr

/-- Error text of the moved-element branch of `require_fresh`. -/
def movedMsg (index : Nat) (text : String) (newIdx : Nat) : String :=
  "element [" ++ toString index ++ "] \"" ++ text ++ "\" moved to [" ++ toString newIdx
    ++ "] - call observe() to refresh"

/-- Error text of the vanished-element branch of `require_fresh`. -/
def goneMsg (index : Nat) (text : String) : String :=
  "element [" ++ toString index ++ "] \"" ++ text ++ "\" no longer exists on page"

/-- Error text when the index is not in the cache at all. -/
def missingMsg (index len : Nat) : String :=
  "element [" ++ toString index ++ "] not found (observed " ++ toString len ++ " elements)"

/-- Error text of the re-lookup after a successful existence check. -/
def disappearedMsg (index : Nat) : String :=
  "element [" ++ toString index ++ "] disappeared"

/-- Error text when the injected select script finds no matching option. -/
def optionMsg (value : String) (index : Nat) : String :=
  "option \"" ++ value ++ "\" in element [" ++ toString index ++ "]"

/-- `Session::require_fresh` (lib.rs lines 812–857): verify the cached
selector still resolves; if it does, return the cached element; if not,
re-observe (replacing the cache) and search the fresh list for the
fingerprint, failing with a moved-to hint or a no-longer-exists error. -/
def requireFresh (page : PageModel) (st : SessionState) (index : Nat) :
    Except Error InteractiveElement × SessionState :=
  match st.elements[index]? with
  | some el =>
    if (page.selectorExists el.selector).getD false then
      match st.elements[index]? with
      | some e => (Except.ok e, st)
      | none => (Except.error (Error.elementNotFound (disappearedMsg index)), st)
    else
      match page.observeResult with
      | Except.error e => (Except.error e, st)
      | Except.ok fresh =>
        match fresh.findIdx? (fun e => e.fingerprint == el.fingerprint) with
        | some newIdx =>
          (Except.error (Error.elementNotFound (movedMsg index el.text newIdx)), ⟨fresh⟩)
        | none =>
          (Except.error (Error.elementNotFound (goneMsg index el.text)), ⟨fresh⟩)
  | none =>
    (Except.error (Error.elementNotFound (missingMsg index st.elements.length)), st)

/-- `wait_for_stable` (identical bodies at lib.rs lines 622–628 and
1014–1020): the network-idle wait's outcome is discarded with `let _ =`,
then a 50 ms sleep; the function returns `Ok(())` unconditionally. -/
def waitForStable (page : PageModel) : Except Error Unit × List PageOp :=
  let _ := page.idleResult
  (Except.ok (), [PageOp.networkIdleWait 200 2000, PageOp.sleep 50])

/-- `Session::wait_for_stable` — same body as the AgentPage variant. -/
def sessionWaitForStable (page : PageModel) : Except Error Unit × List PageOp :=
  let _ := page.idleResult
  (Except.ok (), [PageOp.networkIdleWait 200 2000, PageOp.sleep 50])

/-- `Session::click` (lib.rs lines 861–868): freshness check, click,
stabilize, clear the cache. -/
def sessionClick (page : PageModel) (st : SessionState) (index : Nat) :
    Except Error Unit × SessionState × List PageOp :=
  match requireFresh page st index with
  | (Except.error e, st2) => (Except.error e, st2, [])
  | (Except.ok el, st2) =>
    match page.clickResult el.selector with
    | Except.error e => (Except.error e, st2, [PageOp.click el.selector])
    | Except.ok _ =>
      match sessionWaitForStable page with
      | (Except.error e, ops) => (Except.error e, st2, PageOp.click el.selector :: ops)
      | (Except.ok _, ops) => (Except.ok (), ⟨[]⟩, PageOp.click el.selector :: ops)

/-- `Session::fill` (lib.rs lines 872–878): freshness check, fill,
stabilize; the cache is left alone. -/
def sessionFill (page : PageModel) (st : SessionState) (index : Nat) (text : String) :
    Except Error Unit × SessionState × List PageOp :=
  match requireFresh page st index with
  | (Except.error e, st2) => (Except.error e, st2, [])
  | (Except.ok el, st2) =>
    match page.fillResult el.selector text with
    | Except.error e => (Except.error e, st2, [PageOp.fillOp el.selector text])
    | Except.ok _ =>
      match sessionWaitForStable page with
      | (Except.error e, ops) => (Except.error e, st2, PageOp.fillOp el.selector text :: ops)
      | (Except.ok _, ops) => (Except.ok (), st2, PageOp.fillOp el.selector text :: ops)

/-- `Session::select` (lib.rs lines 882–909): freshness check, injected
option-matching script, stabilize, clear the cache. -/
def sessionSelect (page : PageModel) (st : SessionState) (index : Nat) (value : String) :
    Except Error Unit × SessionState × List PageOp :=
  match requireFresh page st index with
  | (Except.error e, st2) => (Except.error e, st2, [])
  | (Except.ok el, st2) =>
    match page.selectChangeResult el.selector value with
    | Except.error e => (Except.error e, st2, [PageOp.selectChange el.selector value])
    | Except.ok false =>
      (Except.error (Error.elementNotFound (optionMsg value index)), st2,
        [PageOp.selectChange el.selector value])
    | Except.ok true =>
      match sessionWaitForStable page with
      | (Except.error e, ops) =>
        (Except.error e, st2, PageOp.selectChange el.selector value :: ops)
      | (Except.ok _, ops) =>
        (Except.ok (), ⟨[]⟩, PageOp.selectChange el.selector value :: ops)

/-- `Session::hover` (lib.rs lines 912–920): freshness check, then a
mouse-move to the element's bbox centre. -/
def sessionHover (page : PageModel) (st : SessionState) (index : Nat) :
    Except Error Unit × SessionState × List PageOp :=
  match requireFresh page st index with
  | (Except.error e, st2) => (Except.error e, st2, [])
  | (Except.ok el, st2) =>
    let cx := el.bbox.x + el.bbox.width / 2
    let cy := el.bbox.y + el.bbox.height / 2
    (page.mouseResult cx cy, st2, [PageOp.mouseMoved cx cy])

/-- `Session::scroll_to` (lib.rs lines 923–931): freshness check, then
the scroll-into-view script on the cached selector. -/
def sessionScrollTo (page : PageModel) (st : SessionState) (index : Nat) :
    Except Error Unit × SessionState × List PageOp :=
  match requireFresh page st index with
  | (Except.error e, st2) => (Except.error e, st2, [])
  | (Except.ok el, st2) =>
    (page.scrollResult el.selector, st2, [PageOp.scrollIntoView el.selector])

/-- The `AgentPage`'s observation cache. -/
structure AgentState where
  elements : List InteractiveElement
  deriving DecidableEq, Repr

/-- Error text of `AgentPage::require` (lib.rs lines 685–693). -/
def agentRequireMsg (index len : Nat) : String :=
  "element [" ++ toString index ++ "] (observed " ++ toString len
    ++ " elements — call observe() to refresh)"

/-- `AgentPage::require`: a plain cache lookup with no freshness check. -/
def agentRequire (st : AgentState) (index : Nat) : Except Error InteractiveElement :=
  match st.elements[index]? with
  | some el => Except.ok el
  | none => Except.error (Error.elementNotFound (agentRequireMsg index st.elements.length))

/-- `AgentPage::click` (lib.rs lines 328–331): borrows the page with a
shared reference; the cache cannot change. -/
def agentClick (page : PageModel) (st : AgentState) (index : Nat) :
    Except Error Unit × AgentState × List PageOp :=
  match agentRequire st index with
  | Except.error e => (Except.error e, st, [])
  | Except.ok el => (page.clickResult el.selector, st, [PageOp.click el.selector])

/-- `AgentPage::fill` (lib.rs lines 346–349). -/
def agentFill (page : PageModel) (st : AgentState) (index : Nat) (text : String) :
    Except Error Unit × AgentState × List PageOp :=
  match agentRequire st index with
  | Except.error e => (Except.error e, st, [])
  | Except.ok el => (page.fillResult el.selector text, st, [PageOp.fillOp el.selector text])

/-- `AgentPage::select` (lib.rs lines 369–393): injected option-matching
script; no stabilization and no cache mutation. -/
def agentSelect (page : PageModel) (st : AgentState) (index : Nat) (value : String) :
    Except Error Unit × AgentState × List PageOp :=
  match agentRequire st index with
  | Except.error e => (Except.error e, st, [])
  | Except.ok el =>
    match page.selectChangeResult el.selector value with
    | Except.error e => (Except.error e, st, [PageOp.selectChange el.selector value])
    | Except.ok false =>
      (Except.error (Error.elementNotFound (optionMsg value index)), st,
        [PageOp.selectChange el.selector value])
    | Except.ok true => (Except.ok (), st, [PageOp.selectChange el.selector value])

/-- `AgentPage::hover` (lib.rs lines 559–567). -/
def agentHover (page : PageModel) (st : AgentState) (index : Nat) :
    Except Error Unit × AgentState × List PageOp :=
  match agentRequire st index with
  | Except.error e => (Except.error e, st, [])
  | Except.ok el =>
    let cx := el.bbox.x + el.bbox.width / 2
    let cy := el.bbox.y + el.bbox.height / 2
    (page.mouseResult cx cy, st, [PageOp.mouseMoved cx cy])

end Agent

section Fixtures

/-- A cached button element used by the concrete scenarios. -/
def elBtn : Eoka.InteractiveElement :=
  { index := 0, tag := "button", role := none, text := "Old", placeholder := none,
    input_type := none, selector := "#btn", checked := false, value := none,
    bbox := { x := 0, y := 0, width := 100, height := 30 }, fingerprint := 1 }

/-- The element a fresh observation finds at the same selector, with a
different fingerprint. -/
def elBtnNew : Eoka.InteractiveElement :=
  { elBtn with text := "New", fingerprint := 2 }

/-- A page on which every primitive succeeds and `#btn` still resolves. -/
def pageResolves : Agent.PageModel :=
  { selectorExists := fun _ => some true
    observeResult := Except.ok [elBtnNew]
    clickResult := fun _ => Except.ok ()
    fillResult := fun _ _ => Except.ok ()
    selectChangeResult := fun _ _ => Except.ok true
    mouseResult := fun _ _ => Except.ok ()
    scrollResult := fun _ => Except.ok ()
    idleResult := Except.ok () }

/-- A page on which the cached selector no longer resolves and a fresh
observation returns nothing. -/
def pageStaleGone : Agent.PageModel :=
  { pageResolves with selectorExists := fun _ => some false, observeResult := Except.ok [] }

/-- A page whose network-idle wait times out. -/
def pageIdleErr : Agent.PageModel :=
  { pageResolves with idleResult := Except.error (Eoka.Error.pageError "idle timeout") }

/-- A session whose cache holds exactly `elBtn`. -/
def stBtn : Agent.SessionState := ⟨[elBtn]⟩

/-- An AgentPage whose cache holds exactly `elBtn`. -/
def agentStBtn : Agent.AgentState := ⟨[elBtn]⟩

/-- A DOM node with neutral attributes, specialized by the scenarios. -/
def baseNode : Dom.DomNode :=
  { x := 0, y := 0, width := 10, height := 10, display := "block", visibility := "visible",
    opacity := 1, tagName := "DIV", typeAttr := none, ariaLabel := none,
    placeholderAttr := none, titleAttr := none, roleAttr := none, dataTestid := none,
    idAttr := "", nameAttr := "", valueProp := "", checkedProp := false,
    textContent := "", labelText := "", selectedOptionText := none,
    selectedOptionValue := none, childTags := [], hasOnclick := false,
    contenteditableAttr := none, tabindexAttr := none, innerText := "", domPath := "div" }

/-- A visible `div` with `role="link"` labelled "Submit Form": matched by
the observation union selector but not by the resolver's. -/
def divLinkNode : Dom.DomNode :=
  { baseNode with roleAttr := some "link", textContent := "Submit Form",
                  innerText := "Submit Form" }

/-- An annotate-layer page whose screenshot fails after the overlay was
injected. -/
def annotScreenshotFails : Annotate.AnnotatePage :=
  { injectResult := Except.ok ()
    screenshotResult := Except.error (Eoka.Error.pageError "screenshot failed")
    removeResult := Except.ok () }

/-- An annotate-layer page on which every step succeeds. -/
def annotOk : Annotate.AnnotatePage :=
  { injectResult := Except.ok ()
    screenshotResult := Except.ok [1, 2, 3]
    removeResult := Except.ok () }

/-- UTF-8 bytes of 49 `a`s followed by a two-byte character: byte 50
falls inside the final character. -/
def selectorSplitMultibyte : List Nat :=
  List.replicate 49 0x61 ++ [0xC3, 0xA9]

end Fixtures

section TargetParseTheorems

/-- Stripping a literal prefix off the same prefix followed by anything
yields the remainder. -/
theorem stripPre_append (p v : String) : Targeting.stripPre p (p ++ v) = some v := by
  unfold Targeting.stripPre
  have hdata : (p ++ v).data = p.data ++ v.data := rfl
  rw [hdata]
  rw [if_pos]
  · have hdrop : (p.data ++ v.data).drop p.data.length = v.data := List.drop_left p.data v.data
    rw [hdrop]
  · exact List.isPrefixOf_iff_prefix.mpr (List.prefix_append p.data v.data)

/-- A failed Boolean prefix test makes `stripPre` return `none`. -/
theorem stripPre_none (p s : String) (h : p.data.isPrefixOf s.data = false) :
    Targeting.stripPre p s = none := by
  unfold Targeting.stripPre
  rw [if_neg]
  simp [h]

/-- Claim C8: `Target::parse` maps numeric strings to `Index`, strings
with a known `kind:` prefix to that live pattern with the suffix
preserved, and any other string to a live text pattern — after first
trimming surrounding whitespace, and with "numeric" meaning Rust's
`usize` parse (optional leading plus, 64-bit bound). -/
theorem target_parse_characterization (s : String) :
    (∀ n, Targeting.rustParseUsize (Eoka.trimWs s) = some n →
      Targeting.Target.parse s = Targeting.Target.index n) ∧
    (Targeting.rustParseUsize (Eoka.trimWs s) = none →
      (∀ v, Eoka.trimWs s = "text:" ++ v →
        Targeting.Target.parse s = Targeting.Target.live (Targeting.LivePattern.text v)) ∧
      (∀ v, Eoka.trimWs s = "placeholder:" ++ v →
        Targeting.Target.parse s = Targeting.Target.live (Targeting.LivePattern.placeholder v)) ∧
      (∀ v, Eoka.trimWs s = "role:" ++ v →
        Targeting.Target.parse s = Targeting.Target.live (Targeting.LivePattern.role v)) ∧
      (∀ v, Eoka.trimWs s = "css:" ++ v →
        Targeting.Target.parse s = Targeting.Target.live (Targeting.LivePattern.css v)) ∧
      (∀ v, Eoka.trimWs s = "id:" ++ v →
        Targeting.Target.parse s = Targeting.Target.live (Targeting.LivePattern.id v)) ∧
      ((["text:", "placeholder:", "role:", "css:", "id:"].all
          (fun p => !(p.data.isPrefixOf (Eoka.trimWs s).data))) = true →
        Targeting.Target.parse s =
          Targeting.Target.live (Targeting.LivePattern.text (Eoka.trimWs s)))) := by
  constructor
  · intro n hn
    simp [Targeting.Target.parse, hn]
  · intro hnone
    refine ⟨?_, ?_, ?_, ?_, ?_, ?_⟩
    · intro v hv
      have h0 : Targeting.rustParseUsize ("text:" ++ v) = none := hv ▸ hnone
      simp [Targeting.Target.parse, hv, h0, Targeting.LivePattern.parse, stripPre_append]
    · intro v hv
      have h0 : Targeting.rustParseUsize ("placeholder:" ++ v) = none := hv ▸ hnone
      have h1 : Targeting.stripPre "text:" ("placeholder:" ++ v) = none := by
        apply stripPre_none
        have h : ("placeholder:" ++ v).data = 'p' :: "laceholder:".data ++ v.data := rfl
        rw [h]; simp [List.isPrefixOf]
      simp [Targeting.Target.parse, hv, h0, Targeting.LivePattern.parse, h1, stripPre_append]
    · intro v hv
      have h0 : Targeting.rustParseUsize ("role:" ++ v) = none := hv ▸ hnone
      have hd : ("role:" ++ v).data = 'r' :: "ole:".data ++ v.data := rfl
      have h1 : Targeting.stripPre "text:" ("role:" ++ v) = none := by
        apply stripPre_none; rw [hd]; simp [List.isPrefixOf]
      have h2 : Targeting.stripPre "placeholder:" ("role:" ++ v) = none := by
        apply stripPre_none; rw [hd]; simp [List.isPrefixOf]
      simp [Targeting.Target.parse, hv, h0, Targeting.LivePattern.parse, h1, h2,
        stripPre_append]
    · intro v hv
      have h0 : Targeting.rustParseUsize ("css:" ++ v) = none := hv ▸ hnone
      have hd : ("css:" ++ v).data = 'c' :: "ss:".data ++ v.data := rfl
      have h1 : Targeting.stripPre "text:" ("css:" ++ v) = none := by
        apply stripPre_none; rw [hd]; simp [List.isPrefixOf]
      have h2 : Targeting.stripPre "placeholder:" ("css:" ++ v) = none := by
        apply stripPre_none; rw [hd]; simp [List.isPrefixOf]
      have h3 : Targeting.stripPre "role:" ("css:" ++ v) = none := by
        apply stripPre_none; rw [hd]; simp [List.isPrefixOf]
      simp [Targeting.Target.parse, hv, h0, Targeting.LivePattern.parse, h1, h2, h3,
        stripPre_append]
    · intro v hv
      have h0 : Targeting.rustParseUsize ("id:" ++ v) = none := hv ▸ hnone
      have hd : ("id:" ++ v).data = 'i' :: "d:".data ++ v.data := rfl
      have h1 : Targeting.stripPre "text:" ("id:" ++ v) = none := by
        apply stripPre_none; rw [hd]; simp [List.isPrefixOf]
      have h2 : Targeting.stripPre "placeholder:" ("id:" ++ v) = none := by
        apply stripPre_none; rw [hd]; simp [List.isPrefixOf]
      have h3 : Targeting.stripPre "role:" ("id:" ++ v) = none := by
        apply stripPre_none; rw [hd]; simp [List.isPrefixOf]
      have h4 : Targeting.stripPre "css:" ("id:" ++ v) = none := by
        apply stripPre_none; rw [hd]; simp [List.isPrefixOf]
      simp [Targeting.Target.parse, hv, h0, Targeting.LivePattern.parse, h1, h2, h3, h4,
        stripPre_append]
    · intro hall
      simp only [List.all_cons, List.all_nil, Bool.and_eq_true, Bool.not_eq_true'] at hall
      obtain ⟨h1, h2, h3, h4, h5, -⟩ := hall
      simp [Targeting.Target.parse, hnone, Targeting.LivePattern.parse,
        stripPre_none _ _ h1, stripPre_none _ _ h2, stripPre_none _ _ h3,
        stripPre_none _ _ h4, stripPre_none _ _ h5]

/-- Witness for the C8 theorem at a concrete prefixed input. -/
theorem target_parse_characterization_witness :
    Targeting.Target.parse "css:button.primary" =
      Targeting.Target.live (Targeting.LivePattern.css "button.primary") :=
  ((target_parse_characterization "css:button.primary").2 (by decide)).2.2.2.1
    "button.primary" (by decide)

/-- Counterexample to C8 as stated: the parser trims before matching, so
the value of an unprefixed text target is not preserved unchanged — a
trailing space is dropped. -/
theorem target_parse_trims_counterexample :
    Targeting.Target.parse "Submit " = Targeting.Target.live (Targeting.LivePattern.text "Submit")
      ∧ Targeting.Target.parse "Submit " ≠
        Targeting.Target.live (Targeting.LivePattern.text "Submit ") := by
  constructor
  · decide
  · decide

end TargetParseTheorems

section TruncateTheorems

/-- Claim C6 (amended): text longer than 60 characters is truncated to
exactly 60 characters — the first 57 followed by three ASCII full stops
`...` — and text of 60 characters or fewer is emitted unmodified; the
single-character ellipsis `…` never appears. -/
theorem truncate_text_amended (t : List Char) :
    (t.length ≤ 60 → Observe.truncateText t = t) ∧
    (t.length > 60 →
      Observe.truncateText t = t.take 57 ++ ['.', '.', '.'] ∧
      (Observe.truncateText t).length = 60 ∧
      (Observe.truncateText t).getLast? = some '.') := by
  constructor
  · intro h
    unfold Observe.truncateText
    rw [if_neg (by omega)]
  · intro h
    have he : Observe.truncateText t = t.take 57 ++ ['.', '.', '.'] := by
      unfold Observe.truncateText
      rw [if_pos h]
    refine ⟨he, ?_, ?_⟩
    · rw [he]
      simp only [List.length_append, List.length_take, List.length_cons, List.length_nil]
      omega
    · rw [he]
      simp [List.getLast?_append]

/-- Witness for the C6 theorem at a 61-character text. -/
theorem truncate_text_amended_witness :
    (Observe.truncateText (List.replicate 61 'a')).length = 60 :=
  ((truncate_text_amended (List.replicate 61 'a')).2 (by decide)).2.1

/-- Counterexample to C6 as stated: a 61-character text is truncated
with three ASCII full stops, not the three-byte ellipsis character. -/
theorem truncate_text_ellipsis_counterexample :
    Observe.truncateText (List.replicate 61 'a') =
      List.replicate 57 'a' ++ ['.', '.', '.'] ∧
    (Observe.truncateText (List.replicate 61 'a')).getLast? ≠ some '…' := by
  constructor
  · decide
  · decide

end TruncateTheorems

section FingerprintTheorems

/-- The end of a byte string is always a character boundary. -/
theorem isCharBoundary_length (bytes : List Nat) :
    Fingerprint.isCharBoundary bytes bytes.length = true := by
  unfold Fingerprint.isCharBoundary
  by_cases h0 : bytes.length = 0
  · simp [h0]
  · rw [if_neg (by simpa using h0)]
    rw [List.getElem?_eq_none (le_refl bytes.length)]
    simp

/-- Claim C10 (amended): `compute_fingerprint` returns a hash whenever
the cut index `min(selector.len(), 50)` is a character boundary — in
particular for every selector of at most 50 bytes and for every ASCII
selector — and models a panic (`none`) exactly when the cut falls inside
a multi-byte character. -/
theorem compute_fingerprint_totality
    (tag text : List Nat) (role input_type placeholder : Option (List Nat))
    (selector : List Nat) :
    (selector.length ≤ 50 →
      ∃ h, Fingerprint.compute_fingerprint tag text role input_type placeholder selector
        = some h) ∧
    ((∀ b ∈ selector, b < 0x80) →
      ∃ h, Fingerprint.compute_fingerprint tag text role input_type placeholder selector
        = some h) ∧
    (Fingerprint.isCharBoundary selector (min selector.length 50) = false →
      Fingerprint.compute_fingerprint tag text role input_type placeholder selector = none) := by
  refine ⟨?_, ?_, ?_⟩
  · intro hle
    have hcut : min selector.length 50 = selector.length := min_eq_left hle
    unfold Fingerprint.compute_fingerprint
    rw [hcut, if_pos (isCharBoundary_length selector)]
    exact ⟨_, rfl⟩
  · intro hascii
    have hb : Fingerprint.isCharBoundary selector (min selector.length 50) = true := by
      unfold Fingerprint.isCharBoundary
      by_cases h0 : min selector.length 50 = 0
      · simp [h0]
      · rw [if_neg (by simpa using h0)]
        match hx : selector[min selector.length 50]? with
        | some b =>
          have hmem : b ∈ selector := List.getElem?_mem hx
          simp [hascii b hmem]
        | none =>
          have hge : selector.length ≤ min selector.length 50 := by
            by_contra hlt
            push_neg at hlt
            rw [List.getElem?_eq_getElem hlt] at hx
            exact Option.noConfusion hx
          have : min selector.length 50 = selector.length :=
            le_antisymm (min_le_left _ _) hge
          simp [this]
    unfold Fingerprint.compute_fingerprint
    rw [if_pos hb]
    exact ⟨_, rfl⟩
  · intro hfail
    unfold Fingerprint.compute_fingerprint
    rw [if_neg (by simp [hfail])]

/-- Witness for the C10 theorem at a short ASCII selector. -/
theorem compute_fingerprint_totality_witness :
    ∃ h, Fingerprint.compute_fingerprint [0x61] [] none none none [0x62] = some h :=
  (compute_fingerprint_totality [0x61] [] none none none [0x62]).1 (by decide)

/-- Counterexample to C10 as stated: a 51-byte selector whose 50th byte
sits inside a two-byte UTF-8 character makes the byte slice
`selector[..50]` panic (modelled as `none`), so the function is not
total. -/
theorem compute_fingerprint_panic_counterexample :
    Fingerprint.compute_fingerprint [0x62] [] none none none selectorSplitMultibyte = none := by
  decide

end FingerprintTheorems

section StabilizeTheorems

/-- Claim C9: both `wait_for_stable` variants return success and perform
the 200 ms-idle/2000 ms-budget network wait followed by the 50 ms sleep,
even when the network-idle wait itself fails with a timeout. -/
theorem wait_for_stable_always_ok (page : Agent.PageModel) (e : Eoka.Error)
    (_hidle : page.idleResult = Except.error e) :
    Agent.waitForStable page =
      (Except.ok (), [Agent.PageOp.networkIdleWait 200 2000, Agent.PageOp.sleep 50]) ∧
    Agent.sessionWaitForStable page =
      (Except.ok (), [Agent.PageOp.networkIdleWait 200 2000, Agent.PageOp.sleep 50]) :=
  ⟨rfl, rfl⟩

/-- Witness for the C9 theorem on a page whose idle wait times out. -/
theorem wait_for_stable_always_ok_witness :
    Agent.waitForStable pageIdleErr =
      (Except.ok (), [Agent.PageOp.networkIdleWait 200 2000, Agent.PageOp.sleep 50]) ∧
    Agent.sessionWaitForStable pageIdleErr =
      (Except.ok (), [Agent.PageOp.networkIdleWait 200 2000, Agent.PageOp.sleep 50]) :=
  wait_for_stable_always_ok pageIdleErr (Eoka.Error.pageError "idle timeout") rfl

end StabilizeTheorems

section AnnotateTheorems

/-- Claim C3: overlay removal only happens on the success path.  On a
page where every step succeeds the overlay is gone afterwards, but when
the screenshot step fails the function propagates the error with the
`__eoka_overlay` container still attached — the removal `execute` after
the `?` operator is never reached. -/
theorem annotated_screenshot_overlay_on_failure :
    Annotate.annotated_screenshot annotOk [elBtn] = (Except.ok [1, 2, 3], false) ∧
    Annotate.annotated_screenshot annotScreenshotFails [elBtn] =
      (Except.error (Eoka.Error.pageError "screenshot failed"), true) :=
  ⟨rfl, rfl⟩

end AnnotateTheorems

section SessionTheorems

/-- A successful `require_fresh` leaves the cache untouched (the ok exit
sits in the branch where the selector still resolved and no re-observe
happened). -/
theorem requireFresh_ok_state (page : Agent.PageModel) (st : Agent.SessionState)
    (index : Nat) (el : Eoka.InteractiveElement) (st2 : Agent.SessionState)
    (h : Agent.requireFresh page st index = (Except.ok el, st2)) : st2 = st := by
  unfold Agent.requireFresh at h
  repeat (any_goals split at h)
  all_goals simp_all

/-- When the cached selector no longer resolves and the fresh
observation holds a fingerprint match, `require_fresh` fails with the
moved-to message and the cache is replaced by the fresh list. -/
theorem requireFresh_stale_moved (page : Agent.PageModel) (st : Agent.SessionState)
    (index : Nat) (el : Eoka.InteractiveElement) (fresh : List Eoka.InteractiveElement)
    (newIdx : Nat)
    (hel : st.elements[index]? = some el)
    (hgone : page.selectorExists el.selector = some false)
    (hobs : page.observeResult = Except.ok fresh)
    (hfind : fresh.findIdx? (fun e => e.fingerprint == el.fingerprint) = some newIdx) :
    Agent.requireFresh page st index =
      (Except.error (Eoka.Error.elementNotFound (Agent.movedMsg index el.text newIdx)),
        (⟨fresh⟩ : Agent.SessionState)) := by
  unfold Agent.requireFresh
  simp [hel, hgone, hobs, hfind]

/-- When the cached selector no longer resolves and no fresh element
carries the fingerprint, `require_fresh` fails with the
no-longer-exists message and the cache is replaced by the fresh list. -/
theorem requireFresh_stale_gone (page : Agent.PageModel) (st : Agent.SessionState)
    (index : Nat) (el : Eoka.InteractiveElement) (fresh : List Eoka.InteractiveElement)
    (hel : st.elements[index]? = some el)
    (hgone : page.selectorExists el.selector = some false)
    (hobs : page.observeResult = Except.ok fresh)
    (hfind : fresh.findIdx? (fun e => e.fingerprint == el.fingerprint) = none) :
    Agent.requireFresh page st index =
      (Except.error (Eoka.Error.elementNotFound (Agent.goneMsg index el.text)),
        (⟨fresh⟩ : Agent.SessionState)) := by
  unfold Agent.requireFresh
  simp [hel, hgone, hobs, hfind]

/-- A failing `require_fresh` short-circuits `Session::click`: nothing
is dispatched. -/
theorem sessionClick_of_error (page : Agent.PageModel) (st : Agent.SessionState)
    (index : Nat) (e : Eoka.Error) (st2 : Agent.SessionState)
    (h : Agent.requireFresh page st index = (Except.error e, st2)) :
    Agent.sessionClick page st index = (Except.error e, st2, []) := by
  unfold Agent.sessionClick
  rw [h]

/-- A failing `require_fresh` short-circuits `Session::fill`. -/
theorem sessionFill_of_error (page : Agent.PageModel) (st : Agent.SessionState)
    (index : Nat) (text : String) (e : Eoka.Error) (st2 : Agent.SessionState)
    (h : Agent.requireFresh page st index = (Except.error e, st2)) :
    Agent.sessionFill page st index text = (Except.error e, st2, []) := by
  unfold Agent.sessionFill
  rw [h]

/-- A failing `require_fresh` short-circuits `Session::select`. -/
theorem sessionSelect_of_error (page : Agent.PageModel) (st : Agent.SessionState)
    (index : Nat) (value : String) (e : Eoka.Error) (st2 : Agent.SessionState)
    (h : Agent.requireFresh page st index = (Except.error e, st2)) :
    Agent.sessionSelect page st index value = (Except.error e, st2, []) := by
  unfold Agent.sessionSelect
  rw [h]

/-- A failing `require_fresh` short-circuits `Session::hover`. -/
theorem sessionHover_of_error (page : Agent.PageModel) (st : Agent.SessionState)
    (index : Nat) (e : Eoka.Error) (st2 : Agent.SessionState)
    (h : Agent.requireFresh page st index = (Except.error e, st2)) :
    Agent.sessionHover page st index = (Except.error e, st2, []) := by
  unfold Agent.sessionHover
  rw [h]

/-- A failing `require_fresh` short-circuits `Session::scroll_to`. -/
theorem sessionScrollTo_of_error (page : Agent.PageModel) (st : Agent.SessionState)
    (index : Nat) (e : Eoka.Error) (st2 : Agent.SessionState)
    (h : Agent.requireFresh page st index = (Except.error e, st2)) :
    Agent.sessionScrollTo page st index = (Except.error e, st2, []) := by
  unfold Agent.sessionScrollTo
  rw [h]

/-- Claim C1: for every Session action on a cached index whose selector
no longer resolves, the Session re-observes and searches the fresh
list for the cached fingerprint; a match yields an `ElementNotFound`
error whose message names the new index, no match yields an error whose
message contains "no longer exists", and in either case no page
operation is dispatched. -/
theorem stale_actions_fail_without_dispatch
    (page : Agent.PageModel) (st : Agent.SessionState) (index : Nat)
    (el : Eoka.InteractiveElement) (fresh : List Eoka.InteractiveElement)
    (text value : String)
    (hel : st.elements[index]? = some el)
    (hgone : page.selectorExists el.selector = some false)
    (hobs : page.observeResult = Except.ok fresh) :
    ((Agent.sessionClick page st index).2.2 = [] ∧
     (Agent.sessionFill page st index text).2.2 = [] ∧
     (Agent.sessionSelect page st index value).2.2 = [] ∧
     (Agent.sessionHover page st index).2.2 = [] ∧
     (Agent.sessionScrollTo page st index).2.2 = []) ∧
    (∀ newIdx, fresh.findIdx? (fun e => e.fingerprint == el.fingerprint) = some newIdx →
      ((Agent.sessionClick page st index).1 =
        Except.error (Eoka.Error.elementNotFound (Agent.movedMsg index el.text newIdx)) ∧
       (Agent.sessionFill page st index text).1 =
        Except.error (Eoka.Error.elementNotFound (Agent.movedMsg index el.text newIdx)) ∧
       (Agent.sessionSelect page st index value).1 =
        Except.error (Eoka.Error.elementNotFound (Agent.movedMsg index el.text newIdx)) ∧
       (Agent.sessionHover page st index).1 =
        Except.error (Eoka.Error.elementNotFound (Agent.movedMsg index el.text newIdx)) ∧
       (Agent.sessionScrollTo page st index).1 =
        Except.error (Eoka.Error.elementNotFound (Agent.movedMsg index el.text newIdx))) ∧
      (∃ a b, Agent.movedMsg index el.text newIdx = a ++ toString newIdx ++ b)) ∧
    (fresh.findIdx? (fun e => e.fingerprint == el.fingerprint) = none →
      ((Agent.sessionClick page st index).1 =
        Except.error (Eoka.Error.elementNotFound (Agent.goneMsg index el.text)) ∧
       (Agent.sessionFill page st index text).1 =
        Except.error (Eoka.Error.elementNotFound (Agent.goneMsg index el.text)) ∧
       (Agent.sessionSelect page st index value).1 =
        Except.error (Eoka.Error.elementNotFound (Agent.goneMsg index el.text)) ∧
       (Agent.sessionHover page st index).1 =
        Except.error (Eoka.Error.elementNotFound (Agent.goneMsg index el.text)) ∧
       (Agent.sessionScrollTo page st index).1 =
        Except.error (Eoka.Error.elementNotFound (Agent.goneMsg index el.text))) ∧
      (∃ a b, Agent.goneMsg index el.text = a ++ "no longer exists" ++ b)) := by
  refine ⟨?_, ?_, ?_⟩
  · cases hfind : fresh.findIdx? (fun e => e.fingerprint == el.fingerprint) with
    | some newIdx =>
      have hrf := requireFresh_stale_moved page st index el fresh newIdx hel hgone hobs hfind
      exact ⟨by rw [sessionClick_of_error page st index _ _ hrf],
        by rw [sessionFill_of_error page st index text _ _ hrf],
        by rw [sessionSelect_of_error page st index value _ _ hrf],
        by rw [sessionHover_of_error page st index _ _ hrf],
        by rw [sessionScrollTo_of_error page st index _ _ hrf]⟩
    | none =>
      have hrf := requireFresh_stale_gone page st index el fresh hel hgone hobs hfind
      exact ⟨by rw [sessionClick_of_error page st index _ _ hrf],
        by rw [sessionFill_of_error page st index text _ _ hrf],
        by rw [sessionSelect_of_error page st index value _ _ hrf],
        by rw [sessionHover_of_error page st index _ _ hrf],
        by rw [sessionScrollTo_of_error page st index _ _ hrf]⟩
  · intro newIdx hfind
    have hrf := requireFresh_stale_moved page st index el fresh newIdx hel hgone hobs hfind
    refine ⟨⟨by rw [sessionClick_of_error page st index _ _ hrf],
      by rw [sessionFill_of_error page st index text _ _ hrf],
      by rw [sessionSelect_of_error page st index value _ _ hrf],
      by rw [sessionHover_of_error page st index _ _ hrf],
      by rw [sessionScrollTo_of_error page st index _ _ hrf]⟩, ?_⟩
    exact ⟨"element [" ++ toString index ++ "] \"" ++ el.text ++ "\" moved to [",
      "] - call observe() to refresh", rfl⟩
  · intro hfind
    have hrf := requireFresh_stale_gone page st index el fresh hel hgone hobs hfind
    refine ⟨⟨by rw [sessionClick_of_error page st index _ _ hrf],
      by rw [sessionFill_of_error page st index text _ _ hrf],
      by rw [sessionSelect_of_error page st index value _ _ hrf],
      by rw [sessionHover_of_error page st index _ _ hrf],
      by rw [sessionScrollTo_of_error page st index _ _ hrf]⟩, ?_⟩
    refine ⟨"element [" ++ toString index ++ "] \"" ++ el.text ++ "\" ", " on page", ?_⟩
    have hlit : ("\" no longer exists on page" : String) =
        "\" " ++ "no longer exists" ++ " on page" := by decide
    unfold Agent.goneMsg
    rw [hlit]
    simp [String.append_assoc]

/-- Witness for the C1 theorem: a session whose only cached element has
vanished and whose re-observation finds nothing. -/
theorem stale_actions_fail_without_dispatch_witness :
    (Agent.sessionClick pageStaleGone stBtn 0).2.2 = [] ∧
    (Agent.sessionClick pageStaleGone stBtn 0).1 =
      Except.error (Eoka.Error.elementNotFound (Agent.goneMsg 0 elBtn.text)) :=
  ⟨(stale_actions_fail_without_dispatch pageStaleGone stBtn 0 elBtn [] "t" "v"
      rfl rfl rfl).1.1,
   ((stale_actions_fail_without_dispatch pageStaleGone stBtn 0 elBtn [] "t" "v"
      rfl rfl rfl).2.2 rfl).1.1⟩

/-- Claim C2 (amended): when the cached selector still resolves,
`require_fresh` makes no fingerprint comparison — it returns the cached
element and the action dispatches on that selector, regardless of what
now sits at the selector.  Fingerprint matching only happens after the
selector has failed to resolve. -/
theorem resolving_selector_skips_fingerprint
    (page : Agent.PageModel) (st : Agent.SessionState) (index : Nat)
    (el : Eoka.InteractiveElement)
    (hel : st.elements[index]? = some el)
    (hres : page.selectorExists el.selector = some true) :
    Agent.requireFresh page st index = (Except.ok el, st) ∧
    (Agent.sessionClick page st index).2.2.head? = some (Agent.PageOp.click el.selector) := by
  have h1 : Agent.requireFresh page st index = (Except.ok el, st) := by
    unfold Agent.requireFresh
    simp [hel, hres]
  refine ⟨h1, ?_⟩
  unfold Agent.sessionClick
  rw [h1]
  dsimp only
  cases page.clickResult el.selector with
  | error e => rfl
  | ok u => rfl

/-- Witness for the C2 amended theorem on the concrete
changed-in-place page. -/
theorem resolving_selector_skips_fingerprint_witness :
    Agent.requireFresh pageResolves stBtn 0 = (Except.ok elBtn, stBtn) ∧
    (Agent.sessionClick pageResolves stBtn 0).2.2.head? =
      some (Agent.PageOp.click elBtn.selector) :=
  resolving_selector_skips_fingerprint pageResolves stBtn 0 elBtn rfl rfl

/-- Counterexample to C2 as stated: the element now at `#btn` has a
different fingerprint from the cached one (the fresh observation reports
`elBtnNew` with fingerprint 2 against cached fingerprint 1), yet
`Session::click` succeeds and dispatches a click on `#btn` instead of
failing. -/
theorem resolves_fingerprint_differs_counterexample :
    elBtnNew.selector = elBtn.selector ∧
    elBtnNew.fingerprint ≠ elBtn.fingerprint ∧
    pageResolves.observeResult = Except.ok [elBtnNew] ∧
    pageResolves.selectorExists elBtn.selector = some true ∧
    (Agent.sessionClick pageResolves stBtn 0).1 = Except.ok () ∧
    (Agent.sessionClick pageResolves stBtn 0).2.2.head? =
      some (Agent.PageOp.click "#btn") :=
  ⟨rfl, by decide, rfl, rfl, rfl, rfl⟩

/-- Claim C4 (amended): `Session::click` and `Session::select` clear the
cache after a successful action, `Session::fill` and `Session::hover`
leave it unchanged on success, and the `AgentPage` variants of click,
fill, select and hover never modify the cache at all. -/
theorem action_cache_invalidation
    (page : Agent.PageModel) (st : Agent.SessionState) (ast : Agent.AgentState)
    (index : Nat) (text value : String) :
    ((Agent.sessionClick page st index).1 = Except.ok () →
      (Agent.sessionClick page st index).2.1.elements = []) ∧
    ((Agent.sessionSelect page st index value).1 = Except.ok () →
      (Agent.sessionSelect page st index value).2.1.elements = []) ∧
    ((Agent.sessionFill page st index text).1 = Except.ok () →
      (Agent.sessionFill page st index text).2.1 = st) ∧
    ((Agent.sessionHover page st index).1 = Except.ok () →
      (Agent.sessionHover page st index).2.1 = st) ∧
    (Agent.agentClick page ast index).2.1 = ast ∧
    (Agent.agentFill page ast index text).2.1 = ast ∧
    (Agent.agentSelect page ast index value).2.1 = ast ∧
    (Agent.agentHover page ast index).2.1 = ast := by
  refine ⟨?_, ?_, ?_, ?_, ?_, ?_, ?_, ?_⟩
  · intro hok
    unfold Agent.sessionClick at hok ⊢
    rcases hrf : Agent.requireFresh page st index with ⟨r, st2⟩
    rw [hrf] at hok
    cases r with
    | error e => simp at hok
    | ok el =>
      dsimp only at hok ⊢
      cases hc : page.clickResult el.selector with
      | error e => rw [hc] at hok; simp at hok
      | ok u => rfl
  · intro hok
    unfold Agent.sessionSelect at hok ⊢
    rcases hrf : Agent.requireFresh page st index with ⟨r, st2⟩
    rw [hrf] at hok
    cases r with
    | error e => simp at hok
    | ok el =>
      dsimp only at hok ⊢
      cases hc : page.selectChangeResult el.selector value with
      | error e => rw [hc] at hok; simp at hok
      | ok b =>
        cases b with
        | false => rw [hc] at hok; simp at hok
        | true => rfl
  · intro hok
    unfold Agent.sessionFill at hok ⊢
    rcases hrf : Agent.requireFresh page st index with ⟨r, st2⟩
    rw [hrf] at hok
    cases r with
    | error e => simp at hok
    | ok el =>
      dsimp only at hok ⊢
      cases hc : page.fillResult el.selector text with
      | error e => rw [hc] at hok; simp at hok
      | ok u => exact requireFresh_ok_state page st index el st2 hrf
  · intro hok
    unfold Agent.sessionHover at hok ⊢
    rcases hrf : Agent.requireFresh page st index with ⟨r, st2⟩
    rw [hrf] at hok
    cases r with
    | error e => simp at hok
    | ok el => exact requireFresh_ok_state page st index el st2 hrf
  · unfold Agent.agentClick
    cases Agent.agentRequire ast index with
    | error e => rfl
    | ok el => rfl
  · unfold Agent.agentFill
    cases Agent.agentRequire ast index with
    | error e => rfl
    | ok el => rfl
  · unfold Agent.agentSelect
    cases Agent.agentRequire ast index with
    | error e => rfl
    | ok el =>
      dsimp only
      cases page.selectChangeResult el.selector value with
      | error e => rfl
      | ok b => cases b <;> rfl
  · unfold Agent.agentHover
    cases Agent.agentRequire ast index with
    | error e => rfl
    | ok el => rfl

/-- Witness for the C4 theorem: a successful `Session::click` empties
the cache. -/
theorem action_cache_invalidation_witness :
    (Agent.sessionClick pageResolves stBtn 0).2.1.elements = [] :=
  (action_cache_invalidation pageResolves stBtn agentStBtn 0 "t" "v").1 rfl

/-- Counterexample to C4 as stated: `AgentPage::click` succeeds and the
cache is left intact (non-empty), contradicting the claim that the
AgentPage click variant clears the observation cache. -/
theorem agent_click_keeps_cache_counterexample :
    (Agent.agentClick pageResolves agentStBtn 0).1 = Except.ok () ∧
    (Agent.agentClick pageResolves agentStBtn 0).2.1 = agentStBtn ∧
    agentStBtn.elements ≠ [] :=
  ⟨rfl, rfl, by decide⟩

end SessionTheorems

section ResolverTheorems

/-- Searching a filtered list is searching the original list with the
conjunction of the predicates. -/
theorem find?_filter_comm {α : Type} (p q : α → Bool) (l : List α) :
    (l.filter p).find? q = l.find? (fun a => p a && q a) := by
  induction l with
  | nil => rfl
  | cons a t ih =>
    by_cases hp : p a
    · by_cases hq : q a
      · simp [List.filter_cons, hp, List.find?_cons, hq]
      · simp only [List.filter_cons, hp, if_pos, List.find?_cons]
        simp [hq, ih]
    · simp only [List.filter_cons, List.find?_cons]
      simp [hp, ih]

/-- Claim C5 (amended): the live `text` resolver returns the first
element, in document order, that matches the resolver's own union
selector `a,button,input,select,textarea,[role="button"],[onclick],[tabindex]`,
passes the resolver's visibility filter, and whose resolver text
(`innerText || value || aria-label || title || placeholder`) contains
the search value case-insensitively.  That union selector is not the
observation engine's: each matches elements the other does not. -/
theorem resolver_text_first_match (doc : List Dom.DomNode) (value : String) :
    Dom.resolveText doc value =
      doc.find? (fun e =>
        (Dom.matchesResolveInteractive e && Dom.resolveVisible e) &&
        Eoka.listContainsSub (Dom.lcJs (Dom.resolveTextOf e)).data (Dom.lcJs value).data) ∧
    (∃ el, Dom.matchesObserveInteractive el = true ∧ Dom.matchesResolveInteractive el = false) ∧
    (∃ el, Dom.matchesResolveInteractive el = true ∧
      Dom.matchesObserveInteractive el = false) := by
  refine ⟨?_, ⟨divLinkNode, by decide, by decide⟩,
    ⟨{ baseNode with tabindexAttr := some "0" }, by decide, by decide⟩⟩
  unfold Dom.resolveText
  exact find?_filter_comm _ _ doc

/-- Counterexample to C5 as stated: the two union selectors differ, and
a visible `role="link"` element whose text contains the value — matched
by the observation union and therefore required by the claim to be
found — is not found by the live resolver. -/
theorem resolver_union_selector_counterexample :
    Dom.OBSERVE_INTERACTIVE ≠ Dom.RESOLVE_INTERACTIVE ∧
    Dom.matchesObserveInteractive divLinkNode = true ∧
    Eoka.containsCI (Dom.resolveTextOf divLinkNode) "Submit" = true ∧
    Dom.resolveText [divLinkNode] "Submit" = none := by
  refine ⟨by decide, by decide, by decide, by decide⟩

end ResolverTheorems

section ObserveTheorems

/-- One `collect` step preserves the invariant that every emitted
selector is tracked in `seen` and the emitted selectors are distinct. -/
theorem collectStep_invariant (viewportOnly : Bool) (vw vh : Rat)
    (acc : List Observe.RawElement × List String) (nd : Dom.DomNode)
    (h1 : ∀ r ∈ acc.1, r.selector ∈ acc.2)
    (h2 : (acc.1.map (fun r => r.selector)).Nodup) :
    (∀ r ∈ (Observe.collectStep viewportOnly vw vh acc nd).1,
        r.selector ∈ (Observe.collectStep viewportOnly vw vh acc nd).2) ∧
    ((Observe.collectStep viewportOnly vw vh acc nd).1.map (fun r => r.selector)).Nodup := by
  unfold Observe.collectStep
  split
  · cases hp : Observe.processElement viewportOnly vw vh nd with
    | some r0 =>
      dsimp only
      by_cases hseen : acc.2.contains r0.selector
      · rw [if_pos hseen]
        exact ⟨h1, h2⟩
      · rw [if_neg hseen]
        have hfresh : r0.selector ∉ acc.2 := by simpa using hseen
        constructor
        · intro r hr
          rcases List.mem_append.mp hr with hr | hr
          · exact List.mem_append_left _ (h1 r hr)
          · have : r = r0 := by simpa using hr
            subst this
            exact List.mem_append_right _ (by simp)
        · rw [List.map_append, List.nodup_append]
          refine ⟨h2, by simp, ?_⟩
          intro a ha hb
          simp only [List.map_cons, List.map_nil, List.mem_cons, List.not_mem_nil,
            or_false] at hb
          subst hb
          rcases List.mem_map.mp ha with ⟨r, hrmem, hrsel⟩
          exact hfresh (hrsel ▸ h1 r hrmem)
    | none => exact ⟨h1, h2⟩
  · exact ⟨h1, h2⟩

/-- The distinct-selector invariant holds of the whole `collect` fold. -/
theorem collect_fold_invariant (viewportOnly : Bool) (vw vh : Rat) :
    ∀ (nodes : List Dom.DomNode) (acc : List Observe.RawElement × List String),
      (∀ r ∈ acc.1, r.selector ∈ acc.2) →
      (acc.1.map (fun r => r.selector)).Nodup →
      ((nodes.foldl (Observe.collectStep viewportOnly vw vh) acc).1.map
          (fun r => r.selector)).Nodup := by
  intro nodes
  induction nodes with
  | nil => intro acc h1 h2; exact h2
  | cons nd t ih =>
    intro acc h1 h2
    rw [List.foldl_cons]
    have hstep := collectStep_invariant viewportOnly vw vh acc nd h1 h2
    exact ih (Observe.collectStep viewportOnly vw vh acc nd) hstep.1 hstep.2

/-- Host wrapping preserves length. -/
theorem observeHost_length (raw : List Observe.RawElement) :
    (Observe.observeHost raw).length = raw.length := by
  unfold Observe.observeHost
  rw [List.length_map, List.enum_length]

/-- The index column of the host-wrapped list is `range`. -/
theorem observeHost_indices (raw : List Observe.RawElement) :
    (Observe.observeHost raw).map (fun e => e.index) = List.range raw.length := by
  unfold Observe.observeHost
  rw [List.map_map]
  exact List.enum_map_fst raw

/-- The selector column survives host wrapping unchanged. -/
theorem observeHost_selectors (raw : List Observe.RawElement) :
    (Observe.observeHost raw).map (fun e => e.selector) =
      raw.map (fun r => r.selector) := by
  unfold Observe.observeHost
  rw [List.map_map]
  have h2 := congrArg (List.map (fun r : Observe.RawElement => r.selector))
    (List.enum_map_snd raw)
  rw [List.map_map] at h2
  exact h2

/-- Claim C7: every observation result has dense, in-order indices
(the index column equals `range N`) and pairwise-distinct selectors. -/
theorem observe_indices_dense_selectors_distinct (viewportOnly : Bool) (vw vh : Rat)
    (nodes : List Dom.DomNode) :
    ((Observe.observe viewportOnly vw vh nodes).map (fun e => e.index) =
      List.range (Observe.observe viewportOnly vw vh nodes).length) ∧
    (Observe.observe viewportOnly vw vh nodes).Pairwise
      (fun a b => a.selector ≠ b.selector) := by
  constructor
  · unfold Observe.observe
    rw [observeHost_length, observeHost_indices]
  · have hnodup : ((Observe.collectJs viewportOnly vw vh nodes).map
        (fun r => r.selector)).Nodup := by
      unfold Observe.collectJs
      exact collect_fold_invariant viewportOnly vw vh nodes ([], []) (by simp) (by simp)
    have hmapped : ((Observe.observe viewportOnly vw vh nodes).map
        (fun e => e.selector)).Nodup := by
      unfold Observe.observe
      rw [observeHost_selectors]
      exact hnodup
    rw [List.Nodup, List.pairwise_map] at hmapped
    exact hmapped

end ObserveTheorems
